import Mathlib

/-!
Shallow embedding of the permit-workflow-service core
(rule engine, workflow state machine, idempotency layer, submission service)
translated from the TypeScript source, together with theorems settling the
specification claims.  Numbers that are JS `number`s are modelled as `ℚ`;
optional fields as `Option`; Redis as explicit key/value state; Prisma
transactions as all-or-nothing functions on an explicit database value.
-/

/-- Submission states, from the Prisma `SubmissionState` enum. -/
inductive SubmissionState where
  | DRAFT | VALIDATED | PACKET_READY | SUBMITTED | POLLING | APPROVED | NEEDS_INFO
deriving DecidableEq, Repr

/-- Rule severities, from the Prisma `RuleSeverity` enum. -/
inductive RuleSeverity where
  | REQUIRED | WARNING
deriving DecidableEq, Repr

/-- The rule-evaluation context (`RuleContext` in `core/rules/types.ts`,
including the optional jurisdiction-specific fields used by
`ruleImplementations.ts` and the route body schema). -/
structure RuleContext where
  projectName : String
  hasArchitecturalPlans : Bool
  hasStructuralCalcs : Bool
  buildingHeight : ℚ
  setbackFront : ℚ
  setbackSide : ℚ
  setbackRear : ℚ
  fireEgressCount : ℚ
  lotArea : Option ℚ := none
  imperviousArea : Option ℚ := none
  heritageTreesRemoved : Option Bool := none
  zoningDistrict : Option String := none
  proposedUse : Option String := none
deriving DecidableEq, Repr

/-- Result of one rule evaluation (`RuleResult` in `core/rules/types.ts`). -/
structure RuleResult where
  ruleKey : String
  passed : Bool
  message : String
  severity : RuleSeverity
deriving DecidableEq, Repr

/-- The persisted `PermitSubmission` row (the fields the core reads/writes). -/
structure PermitSubmission where
  id : String
  projectName : String
  state : SubmissionState
  completenessScore : ℚ
  organizationId : String
  jurisdictionId : String
  submissionDetails : RuleContext
deriving DecidableEq, Repr

/-- The transition table `ALLOWED_TRANSITIONS` from
`core/workflow/stateMachine.ts`. -/
def ALLOWED_TRANSITIONS : SubmissionState → List SubmissionState
  | .DRAFT => [.VALIDATED]
  | .VALIDATED => [.PACKET_READY]
  | .PACKET_READY => [.SUBMITTED]
  | .SUBMITTED => [.APPROVED, .NEEDS_INFO]
  | .POLLING => [.APPROVED, .NEEDS_INFO]
  | .APPROVED => []
  | .NEEDS_INFO => [.DRAFT]

/-- Function `canTransition` from `core/workflow/stateMachine.ts`: the completeness
guard on `VALIDATED` is evaluated first and short-circuits to `false`,
then the table row of the submission's current state is consulted. -/
def canTransition (submission : PermitSubmission) (targetState : SubmissionState) : Bool :=
  if targetState = .VALIDATED ∧ submission.completenessScore < 1 then
    false
  else
    (ALLOWED_TRANSITIONS submission.state).contains targetState

/-- A sample complete (score 1.0) DRAFT submission used by witnesses. -/
def sampleCtx : RuleContext :=
  { projectName := "Deck Addition"
    hasArchitecturalPlans := true
    hasStructuralCalcs := true
    buildingHeight := 30
    setbackFront := 25
    setbackSide := 10
    setbackRear := 30
    fireEgressCount := 3 }

/-- A sample complete (score 1.0) DRAFT submission used by witnesses. -/
def sampleSubmission : PermitSubmission :=
  { id := "sub-1"
    projectName := "Deck Addition"
    state := .DRAFT
    completenessScore := 1
    organizationId := "org-1"
    jurisdictionId := "jur-1"
    submissionDetails := sampleCtx }

/-- Result returned by a rule logic function (`{ passed, message }`). -/
structure LogicResult where
  passed : Bool
  message : String
deriving DecidableEq, Repr

/-- JS truthiness of an optional number (`!x` is true for `undefined` and `0`). -/
def numTruthy : Option ℚ → Bool
  | none => false
  | some x => decide (x ≠ 0)

/-- JS truthiness of an optional boolean (`!x` is true for `undefined` and `false`). -/
def boolTruthy : Option Bool → Bool
  | none => false
  | some b => b

/-- JS `Number.prototype.toFixed(1)` on a nonnegative rational:
round half away from zero to one decimal and render. -/
def toFixed1Nonneg (q : ℚ) : String :=
  let n : ℤ := ⌊q * 10 + 1 / 2⌋
  toString (n / 10) ++ "." ++ toString (n % 10)

/-- JS `Number.prototype.toFixed(1)` (sign handled as in the ECMA spec). -/
def toFixed1 (q : ℚ) : String :=
  if q < 0 then "-" ++ toFixed1Nonneg (-q) else toFixed1Nonneg q

/-- JS `String.prototype.includes`: substring occurrence. -/
def strIncludes (s pattern : String) : Bool :=
  decide (pattern.data <:+: s.data)

/-- Rule `ARCHITECTURAL_PLANS_SUBMITTED` from `core/rules/ruleImplementations.ts`. -/
def architecturalPlansLogic (ctx : RuleContext) : LogicResult :=
  { passed := ctx.hasArchitecturalPlans
    message := if ctx.hasArchitecturalPlans then "Plans attached."
      else "Missing architectural plans." }

/-- Rule `STRUCTURAL_CALCS_INCLUDED` from `core/rules/ruleImplementations.ts`. -/
def structuralCalcsLogic (ctx : RuleContext) : LogicResult :=
  { passed := ctx.hasStructuralCalcs
    message := if ctx.hasStructuralCalcs then "Calcs included."
      else "Missing structural calculations." }

/-- Rule `ATX_IMPERVIOUS_COVER` from `core/rules/ruleImplementations.ts`.
The missing-data guard is the JS falsy test `!ctx.lotArea || !ctx.imperviousArea`. -/
def imperviousCoverLogic (ctx : RuleContext) : LogicResult :=
  if !numTruthy ctx.lotArea || !numTruthy ctx.imperviousArea then
    { passed := false, message := "Missing lot/impervious area data." }
  else
    let ratio : ℚ := ctx.imperviousArea.getD 0 / ctx.lotArea.getD 0
    { passed := decide (ratio ≤ 45 / 100)
      message :=
        if ratio ≤ 45 / 100 then
          "Impervious cover (" ++ toFixed1 (ratio * 100) ++ "%) is within the 45% limit."
        else
          "Impervious cover (" ++ toFixed1 (ratio * 100) ++ "%) exceeds the 45% limit." }

/-- Rule `ATX_HERITAGE_TREE` from `core/rules/ruleImplementations.ts`. -/
def heritageTreeLogic (ctx : RuleContext) : LogicResult :=
  { passed := !boolTruthy ctx.heritageTreesRemoved
    message := if !boolTruthy ctx.heritageTreesRemoved then "No heritage trees affected."
      else "Heritage tree removal requires a separate forestry review." }

/-- Rule `ATX_HEIGHT_RESIDENTIAL` from `core/rules/ruleImplementations.ts`. -/
def heightResidentialLogic (ctx : RuleContext) : LogicResult :=
  { passed := decide (ctx.buildingHeight ≤ 35)
    message := if ctx.buildingHeight ≤ 35 then "Height is compliant with SF-3 zoning."
      else "Height exceeds 35ft limit for SF-3." }

/-- Rule `ATX_VISITABILITY` from `core/rules/ruleImplementations.ts`. -/
def visitabilityLogic (_ctx : RuleContext) : LogicResult :=
  { passed := true
    message := "Note: Ensure compliance with Visitability Ordinance (no-step entrance)." }

/-- Rule `NYC_FIRE_STANDPIPE` from `core/rules/ruleImplementations.ts`. -/
def fireStandpipeLogic (ctx : RuleContext) : LogicResult :=
  { passed := decide (ctx.buildingHeight ≤ 75)
    message := if ctx.buildingHeight ≤ 75 then "Building under 75ft, standpipe rules ok."
      else "Building exceeds 75ft; standpipe system is required." }

/-- The string-keyed registry `ruleImplementations` from
`core/rules/ruleImplementations.ts`; an unknown key has no implementation. -/
def ruleImplementations : String → Option (RuleContext → LogicResult)
  | "ARCHITECTURAL_PLANS_SUBMITTED" => some architecturalPlansLogic
  | "STRUCTURAL_CALCS_INCLUDED" => some structuralCalcsLogic
  | "ATX_IMPERVIOUS_COVER" => some imperviousCoverLogic
  | "ATX_HERITAGE_TREE" => some heritageTreeLogic
  | "ATX_HEIGHT_RESIDENTIAL" => some heightResidentialLogic
  | "ATX_VISITABILITY" => some visitabilityLogic
  | "NYC_FIRE_STANDPIPE" => some fireStandpipeLogic
  | _ => none

/-- A `Rule` row: `key` matched against the registry, `severity` copied into
the result (the human description plays no part in evaluation). -/
structure Rule where
  key : String
  severity : RuleSeverity
deriving DecidableEq, Repr

/-- A `RuleSet` row: owning jurisdiction, version, effective date (epoch
milliseconds), and its rules. -/
structure RuleSet where
  jurisdictionId : String
  version : ℤ
  effectiveDate : ℤ
  rules : List Rule
deriving DecidableEq, Repr, Inhabited

/-- The element a `findFirst` ordered descending by `effectiveDate` returns:
the entry with the greatest effective date (earlier entries win ties). -/
def pickLatestRuleSet : List RuleSet → Option RuleSet
  | [] => none
  | rs :: rest =>
    match pickLatestRuleSet rest with
    | none => some rs
    | some best => if best.effectiveDate > rs.effectiveDate then some best else some rs

/-- The rule-set query of `evaluateRules`:
`findFirst({where: {jurisdictionId, effectiveDate ≤ now}, orderBy: {effectiveDate: desc}})`. -/
def findActiveRuleSet (ruleSets : List RuleSet) (jurisdictionId : String) (now : ℤ) :
    Option RuleSet :=
  pickLatestRuleSet (ruleSets.filter fun rs =>
    rs.jurisdictionId == jurisdictionId && decide (rs.effectiveDate ≤ now))

/-- One iteration of the evaluation loop in `core/rules/evaluateRules.ts`:
a key with no registered implementation is skipped and recorded as a
`console.warn` diagnostic; an implemented one contributes exactly one result
carrying the rule's key and severity. -/
def evalRulesStep (context : RuleContext) (acc : List RuleResult × List String)
    (dbRule : Rule) : List RuleResult × List String :=
  match ruleImplementations dbRule.key with
  | none => (acc.1, acc.2 ++ ["No implementation found for rule key: " ++ dbRule.key])
  | some logicFn =>
    let logicResult := logicFn context
    (acc.1 ++ [{ ruleKey := dbRule.key, passed := logicResult.passed,
                 message := logicResult.message, severity := dbRule.severity }], acc.2)

/-- Function `evaluateRules` from `core/rules/evaluateRules.ts`: resolve the active
rule set (throwing the no-active-rule-set error when none qualifies), then
run the loop; the second component collects the warning diagnostics. -/
def evaluateRules (ruleSets : List RuleSet) (context : RuleContext)
    (jurisdictionId : String) (now : ℤ) : Except String (List RuleResult × List String) :=
  match findActiveRuleSet ruleSets jurisdictionId now with
  | none => .error ("No active RuleSet found for jurisdiction: " ++ jurisdictionId)
  | some ruleSet => .ok (ruleSet.rules.foldl (evalRulesStep context) ([], []))

/-- JS `parseFloat(q.toFixed(2))` for a score in `[0, 1]`: round half up to
two decimal places. -/
def round2 (q : ℚ) : ℚ := (⌊q * 100 + 1 / 2⌋ : ℚ) / 100

/-- The score computation inlined in both `createForUser` and
`updateSubmission`: required-severity results only, passed fraction with the
division-by-zero guard, rounded to two decimals before persisting. -/
def computeScore (ruleResults : List RuleResult) : ℚ :=
  let requiredRules := ruleResults.filter fun r => r.severity == RuleSeverity.REQUIRED
  let passedRequiredRules := (requiredRules.filter fun r => r.passed).length
  let completenessScore : ℚ :=
    if requiredRules.length > 0 then
      (passedRequiredRules : ℚ) / (requiredRules.length : ℚ)
    else 1
  round2 completenessScore

/-- The completeness score as the spec words it (§4.3), for comparison with
the code's `computeScore`: `passedRequiredCount / requiredCount` rounded to
two decimals, and `1.0` outright when there are zero REQUIRED results. -/
def specScore (results : List RuleResult) : ℚ :=
  let required := results.filter fun r => r.severity == RuleSeverity.REQUIRED
  if required.length = 0 then 1
  else round2 (((required.filter fun r => r.passed).length : ℚ) / (required.length : ℚ))

/-- A `Jurisdiction` row: unique `code` and primary key. -/
structure Jurisdiction where
  id : String
  code : String
deriving DecidableEq, Repr

/-- A persisted `RuleResult` row, owned by a submission. -/
structure StoredRuleResult where
  submissionId : String
  ruleKey : String
  passed : Bool
  message : String
  severity : RuleSeverity
deriving DecidableEq, Repr

/-- A `WorkflowEvent` audit row. -/
structure WorkflowEvent where
  submissionId : String
  eventType : String
  fromState : SubmissionState
  toState : SubmissionState
deriving DecidableEq, Repr

/-- A job placed on the packet queue (`packetQueue.add("generate-pdf", ...)`). -/
structure QueuedJob where
  jobName : String
  submissionId : String
deriving DecidableEq, Repr

/-- The persistent state the submission service reads and writes (relational
rows plus the job queue). -/
structure Db where
  jurisdictions : List Jurisdiction
  ruleSets : List RuleSet
  submissions : List PermitSubmission
  ruleResults : List StoredRuleResult
  events : List WorkflowEvent
  queue : List QueuedJob
deriving DecidableEq, Repr

/-- The authenticated actor (`UserPayload` from `hooks/jwtAuth.ts`): the
tenant that scopes every read and write. -/
structure UserPayload where
  organizationId : String
deriving DecidableEq, Repr

/-- Service method `submissionService.findOneForUser`: lookup by id restricted to the
requesting user's organization. -/
def findOneForUser (db : Db) (id : String) (user : UserPayload) :
    Option PermitSubmission :=
  db.submissions.find? fun s => s.id == id && s.organizationId == user.organizationId

/-- Conversion of an evaluation result into its persisted row
(the `createMany` payload of both write paths). -/
def toStored (submissionId : String) (r : RuleResult) : StoredRuleResult :=
  { submissionId := submissionId, ruleKey := r.ruleKey, passed := r.passed,
    message := r.message, severity := r.severity }

/-- Service method `submissionService.transitionState`: a single transaction that fetches
the current row (scoped to the tenant), appends the `STATE_TRANSITION`
event recording `fromState` as the freshly read state, and writes the
target state.  It performs no `canTransition` check of its own. -/
def transitionState (db : Db) (id : String) (targetState : SubmissionState)
    (user : UserPayload) : Except String (PermitSubmission × Db) :=
  match findOneForUser db id user with
  | none => .error "NotFound"
  | some currentSubmission =>
    let ev : WorkflowEvent :=
      { submissionId := id, eventType := "STATE_TRANSITION",
        fromState := currentSubmission.state, toState := targetState }
    .ok ({ currentSubmission with state := targetState },
      { db with
        events := db.events ++ [ev]
        submissions := db.submissions.map fun s =>
          if s.id == id && s.organizationId == user.organizationId then
            { s with state := targetState }
          else s })

/-- Service method `submissionService.generatePacketForSubmission`: tenant
lookup, then the state gate, then the queue insertion. -/
def generatePacketForSubmission (db : Db) (id : String) (user : UserPayload) :
    Except String (String × Db) :=
  match findOneForUser db id user with
  | none => .error "Submission not found"
  | some submission =>
    if submission.state = .DRAFT ∨ submission.state = .NEEDS_INFO then
      .error "Cannot generate packet: Submission is incomplete or in DRAFT."
    else if [SubmissionState.PACKET_READY, .SUBMITTED, .POLLING,
        .APPROVED].contains submission.state then
      .error "Packet already exists. Please download the existing packet."
    else
      let jobId := "job-" ++ toString db.queue.length
      .ok (jobId,
        { db with queue := db.queue ++ [{ jobName := "generate-pdf", submissionId := id }] })

/-- Service method `submissionService.createForUser`: jurisdiction lookup, rule evaluation,
score computation, transactional insert of the submission and its rule
results, then the auto-transition to `VALIDATED` when the persisted score
is exactly `1`. -/
def createForUser (db : Db) (submissionData : RuleContext) (jurisdictionCode : String)
    (user : UserPayload) (now : ℤ) (newId : String) :
    Except String (PermitSubmission × Db) :=
  match db.jurisdictions.find? fun j => j.code == jurisdictionCode with
  | none => .error ("Invalid Jurisdiction Code: " ++ jurisdictionCode)
  | some jurisdiction =>
    match evaluateRules db.ruleSets submissionData jurisdiction.id now with
    | .error e => .error e
    | .ok (ruleResults, _warnings) =>
      let completenessScore := computeScore ruleResults
      let submission : PermitSubmission :=
        { id := newId, projectName := submissionData.projectName, state := .DRAFT,
          completenessScore := completenessScore,
          organizationId := user.organizationId,
          jurisdictionId := jurisdiction.id, submissionDetails := submissionData }
      let db1 :=
        { db with
          submissions := db.submissions ++ [submission]
          ruleResults := db.ruleResults ++ ruleResults.map (toStored newId) }
      if completenessScore = 1 then
        match transitionState db1 newId .VALIDATED user with
        | .error e => .error e
        | .ok (_, db2) => .ok ({ submission with state := .VALIDATED }, db2)
      else
        .ok (submission, db1)

/-- Type `Partial<RuleContext>`: a PATCH body; only the provided keys override
the stored details when spread. -/
structure RuleContextUpdate where
  projectName : Option String := none
  hasArchitecturalPlans : Option Bool := none
  hasStructuralCalcs : Option Bool := none
  buildingHeight : Option ℚ := none
  setbackFront : Option ℚ := none
  setbackSide : Option ℚ := none
  setbackRear : Option ℚ := none
  fireEgressCount : Option ℚ := none
  lotArea : Option ℚ := none
  imperviousArea : Option ℚ := none
  heritageTreesRemoved : Option Bool := none
  zoningDistrict : Option String := none
  proposedUse : Option String := none
deriving DecidableEq, Repr

/-- The merge `{...currentDetails, ...updates, projectName: existing.projectName}`
of `updateSubmission`: provided update keys override, and `projectName` is
forced back to the existing row's value last. -/
def mergeContext (current : RuleContext) (updates : RuleContextUpdate)
    (existingProjectName : String) : RuleContext :=
  { projectName := existingProjectName
    hasArchitecturalPlans := updates.hasArchitecturalPlans.getD current.hasArchitecturalPlans
    hasStructuralCalcs := updates.hasStructuralCalcs.getD current.hasStructuralCalcs
    buildingHeight := updates.buildingHeight.getD current.buildingHeight
    setbackFront := updates.setbackFront.getD current.setbackFront
    setbackSide := updates.setbackSide.getD current.setbackSide
    setbackRear := updates.setbackRear.getD current.setbackRear
    fireEgressCount := updates.fireEgressCount.getD current.fireEgressCount
    lotArea := match updates.lotArea with
      | some v => some v
      | none => current.lotArea
    imperviousArea := match updates.imperviousArea with
      | some v => some v
      | none => current.imperviousArea
    heritageTreesRemoved := match updates.heritageTreesRemoved with
      | some v => some v
      | none => current.heritageTreesRemoved
    zoningDistrict := match updates.zoningDistrict with
      | some v => some v
      | none => current.zoningDistrict
    proposedUse := match updates.proposedUse with
      | some v => some v
      | none => current.proposedUse }

/-- Service method `submissionService.updateSubmission`: one transaction that fetches the
row (tenant-scoped), rejects non-DRAFT edits, merges the details, re-runs
the rules, writes only `completenessScore` and `submissionDetails`, and
replaces the submission's rule results wholesale. -/
def updateSubmission (db : Db) (id : String) (updates : RuleContextUpdate)
    (user : UserPayload) (now : ℤ) : Except String (PermitSubmission × Db) :=
  match findOneForUser db id user with
  | none => .error "NotFound"
  | some existing =>
    if existing.state ≠ .DRAFT then .error "Only DRAFT submissions can be edited."
    else
      let ruleContext := mergeContext existing.submissionDetails updates existing.projectName
      match evaluateRules db.ruleSets ruleContext existing.jurisdictionId now with
      | .error e => .error e
      | .ok (ruleResults, _warnings) =>
        let completenessScore := computeScore ruleResults
        .ok ({ existing with
               completenessScore := completenessScore
               submissionDetails := ruleContext },
          { db with
            submissions := db.submissions.map fun s =>
              if s.id == id then
                { s with
                  completenessScore := completenessScore
                  submissionDetails := ruleContext }
              else s
            ruleResults :=
              (db.ruleResults.filter fun r => r.submissionId != id)
                ++ ruleResults.map (toStored id) })

/-- Rendering of a state into route error messages (template literals). -/
def stateName : SubmissionState → String
  | .DRAFT => "DRAFT"
  | .VALIDATED => "VALIDATED"
  | .PACKET_READY => "PACKET_READY"
  | .SUBMITTED => "SUBMITTED"
  | .POLLING => "POLLING"
  | .APPROVED => "APPROVED"
  | .NEEDS_INFO => "NEEDS_INFO"

/-- The body of an HTTP reply as the routes construct it. -/
inductive ReplyBody where
  | errorMsg (error : String)
  | errorWithMessage (error message : String)
  | submissionBody (s : PermitSubmission)
  | text (message : String)
deriving DecidableEq, Repr

/-- An HTTP reply: status code and body. -/
structure HttpReply where
  status : Nat
  body : ReplyBody
deriving DecidableEq, Repr

/-- Route `GET /submissions/:id`: tenant-scoped lookup, `404` when nothing owned
by the requesting tenant matches. -/
def getSubmissionRoute (db : Db) (id : String) (user : UserPayload) : HttpReply :=
  match findOneForUser db id user with
  | none => { status := 404, body := .errorMsg "Submission not found" }
  | some submission => { status := 200, body := .submissionBody submission }

/-- Outcome of the pre-transaction part of the transition route handler. -/
inductive TransitionCheck where
  | notFound
  | illegal (message : String)
  | legal
deriving DecidableEq, Repr

/-- The read-and-validate phase of `POST /submissions/:id/transition`:
`findOneForUser`, then `canTransition` on the fetched row — performed
*before* (outside of) the `transitionState` transaction. -/
def transitionRouteCheck (db : Db) (id : String) (targetState : SubmissionState)
    (user : UserPayload) : TransitionCheck :=
  match findOneForUser db id user with
  | none => .notFound
  | some currentSubmission =>
    if canTransition currentSubmission targetState then .legal
    else if targetState = .VALIDATED ∧ currentSubmission.completenessScore < 1 then
      .illegal "Cannot transition to VALIDATED: Submission is incomplete (Score must be 1.0)."
    else
      .illegal ("Cannot transition from " ++ stateName currentSubmission.state
        ++ " to " ++ stateName targetState ++ ".")

/-- The full `POST /submissions/:id/transition` handler: the pre-check phase
followed by the `transitionState` transaction. -/
def transitionRoute (db : Db) (id : String) (targetState : SubmissionState)
    (user : UserPayload) : HttpReply × Db :=
  match transitionRouteCheck db id targetState user with
  | .notFound => ({ status := 404, body := .errorMsg "Submission not found" }, db)
  | .illegal msg =>
    ({ status := 400, body := .errorWithMessage "INVALID_TRANSITION" msg }, db)
  | .legal =>
    match transitionState db id targetState user with
    | .ok (updated, db') => ({ status := 200, body := .submissionBody updated }, db')
    | .error _ => ({ status := 500, body := .errorMsg "Internal Server Error" }, db)

/-- Route `POST /submissions/:id/generate-packet`: the service call with the
route's `error.message.includes(...)` mapping to 400/409/500. -/
def generatePacketRoute (db : Db) (id : String) (user : UserPayload) : HttpReply × Db :=
  match generatePacketForSubmission db id user with
  | .ok (jobId, db') =>
    ({ status := 200, body := .text ("Packet generation queued. Job ID: " ++ jobId) }, db')
  | .error msg =>
    if strIncludes msg "Cannot generate packet" then
      ({ status := 400, body := .errorWithMessage "Invalid State" msg }, db)
    else if strIncludes msg "Packet already exists" then
      ({ status := 409, body := .errorWithMessage "Conflict" msg }, db)
    else ({ status := 500, body := .errorMsg "Internal Server Error" }, db)

/-- A cached idempotency response `{statusCode, headers, body}`. -/
structure CachedResponse where
  statusCode : Nat
  headers : List (String × String)
  body : String
deriving DecidableEq, Repr

/-- A cache entry together with the TTL it was stored with. -/
structure CacheEntry where
  value : CachedResponse
  ttlSeconds : Nat
deriving DecidableEq, Repr

/-- The Redis keys the idempotency hooks touch: the response cache and the
locks, each with the TTL they were set with. -/
structure RedisState where
  cache : List (String × CacheEntry)
  locks : List (String × Nat)
deriving DecidableEq, Repr

/-- Redis `GET` over the association-list model. -/
def kvLookup {α : Type} (l : List (String × α)) (k : String) : Option α :=
  (l.find? fun p => p.1 == k).map Prod.snd

/-- Redis `DEL` over the association-list model. -/
def kvRemove {α : Type} (l : List (String × α)) (k : String) : List (String × α) :=
  l.filter fun p => p.1 != k

/-- Redis `SET`/`SETEX` over the association-list model. -/
def kvInsert {α : Type} (l : List (String × α)) (k : String) (v : α) :
    List (String × α) :=
  (k, v) :: kvRemove l k

/-- Constant `LOCK_TTL_SECONDS` from `hooks/idempotency.ts`. -/
def LOCK_TTL_SECONDS : Nat := 10

/-- Constant `CACHE_TTL_SECONDS` from `hooks/idempotency.ts`. -/
def CACHE_TTL_SECONDS : Nat := 60 * 60 * 24

/-- What the `check` hook decides for a request. -/
inductive CheckOutcome where
  | proceed (lockKey : Option String)
  | replay (statusCode : Nat) (headers : List (String × String)) (body : String)
  | conflict (statusCode : Nat) (error message : String)
deriving DecidableEq, Repr

/-- Hook `idempotencyHooks.check`: non-POST/PATCH and key-less (or empty-key)
requests pass straight through; a cached response is replayed verbatim; the
`SET NX EX 10` lock acquisition either attaches the lock key to the request
or answers `409` at once.  The request body is a parameter only because the
hook receives the request — the decision never reads it. -/
def idempotencyCheck (method : String) (idempotencyKey : Option String)
    (_requestBody : String) (st : RedisState) : CheckOutcome × RedisState :=
  if method != "POST" && method != "PATCH" then (.proceed none, st)
  else
    match idempotencyKey with
    | none => (.proceed none, st)
    | some key =>
      if key = "" then (.proceed none, st)
      else
        let redisKey := "idempotency:" ++ key
        let lockKey := "lock:idempotency:" ++ key
        match kvLookup st.cache redisKey with
        | some entry =>
          (.replay entry.value.statusCode entry.value.headers entry.value.body, st)
        | none =>
          if (kvLookup st.locks lockKey).isSome then
            (.conflict 409 "Conflict" "Processing...", st)
          else
            (.proceed (some lockKey),
             { st with locks := kvInsert st.locks lockKey LOCK_TTL_SECONDS })

/-- Hook `idempotencyHooks.save`: runs only when the request carried a key and
acquired the lock; the per-reply processed flag makes it a no-op on repeat
invocations; a 2xx reply is cached for 24h and the lock released, any other
reply releases the lock without caching; `setexFails` models a throw inside
the phase, whose catch still releases the lock.  Returns the new processed
flag and Redis state. -/
def idempotencySave (idempotencyKey : Option String) (lockKey : Option String)
    (processed : Bool) (statusCode : Nat) (headers : List (String × String))
    (payload : String) (setexFails : Bool) (st : RedisState) : Bool × RedisState :=
  match lockKey, idempotencyKey with
  | some lk, some key =>
    if lk = "" ∨ key = "" then (processed, st)
    else if processed then (true, st)
    else if 200 ≤ statusCode ∧ statusCode < 300 then
      if setexFails then (true, { st with locks := kvRemove st.locks lk })
      else
        (true,
         { st with
           cache := kvInsert st.cache ("idempotency:" ++ key)
             { value := { statusCode := statusCode, headers := headers, body := payload }
               ttlSeconds := CACHE_TTL_SECONDS }
           locks := kvRemove st.locks lk })
    else (true, { st with locks := kvRemove st.locks lk })
  | _, _ => (processed, st)

/-- A context whose areas are both present but whose impervious area is `0`:
the falsy guard of `imperviousCoverLogic` treats it as missing data. -/
def ctxZeroImpervious : RuleContext :=
  { sampleCtx with lotArea := some 1000, imperviousArea := some 0 }

/-- Witness database: one jurisdiction whose active rule set has one
implemented REQUIRED rule and one unimplemented WARNING rule. -/
def scoreDb : Db :=
  { jurisdictions := [{ id := "jur-1", code := "ATX" }]
    ruleSets := [{ jurisdictionId := "jur-1", version := 1, effectiveDate := 0
                   rules := [{ key := "ARCHITECTURAL_PLANS_SUBMITTED", severity := .REQUIRED }
                            , { key := "SOME_FUTURE_RULE", severity := .WARNING }] }]
    submissions := []
    ruleResults := []
    events := []
    queue := [] }

/-- A context failing the plans rule (score 0 on the witness rule set). -/
def ctxNoPlans : RuleContext := { sampleCtx with hasArchitecturalPlans := false }

/-- The witness actor. -/
def scoreUser : UserPayload := { organizationId := "org-1" }

/-- The evaluation results of `ctxNoPlans` against `scoreDb`'s rule set. -/
def scoreResults : List RuleResult :=
  [{ ruleKey := "ARCHITECTURAL_PLANS_SUBMITTED", passed := false,
     message := "Missing architectural plans.", severity := .REQUIRED }]

/-- The submission `createForUser` persists for `ctxNoPlans` on `scoreDb`. -/
def scoreSub : PermitSubmission :=
  { id := "new-1"
    projectName := "Deck Addition"
    state := .DRAFT
    completenessScore := computeScore scoreResults
    organizationId := "org-1"
    jurisdictionId := "jur-1"
    submissionDetails := ctxNoPlans }

/-- The database state after that create. -/
def scoreDbAfter : Db :=
  { scoreDb with
    submissions := [scoreSub]
    ruleResults := scoreResults.map (toStored "new-1") }

/-- Database `scoreDb` seeded with the complete DRAFT submission. -/
def seededDb : Db := { scoreDb with submissions := [sampleSubmission] }

/-- Database `scoreDb` seeded with the submission already in `VALIDATED`. -/
def packetDb : Db :=
  { scoreDb with submissions := [{ sampleSubmission with state := .VALIDATED }] }

/-- Database `scoreDb` seeded with a submission owned by another tenant. -/
def foreignDb : Db :=
  { scoreDb with submissions := [{ sampleSubmission with organizationId := "org-2" }] }

/-- A PATCH body that tries to rename the project and raise the height. -/
def upd0 : RuleContextUpdate :=
  { projectName := some "Hijacked Name", buildingHeight := some 50 }

/-- The re-evaluation results for the merged context on `seededDb`. -/
def updResults : List RuleResult :=
  [{ ruleKey := "ARCHITECTURAL_PLANS_SUBMITTED", passed := true,
     message := "Plans attached.", severity := .REQUIRED }]

/-- The submission row after the PATCH. -/
def updSub : PermitSubmission :=
  { sampleSubmission with
    completenessScore := computeScore updResults
    submissionDetails := mergeContext sampleCtx upd0 "Deck Addition" }

/-- The database state after the PATCH. -/
def updDbAfter : Db :=
  { seededDb with
    submissions := [updSub]
    ruleResults := updResults.map (toStored "sub-1") }

/-- C1: `canTransition s t` is true exactly when `t` is in the table row of
`s.state` and, for `t = VALIDATED`, only when `s.completenessScore = 1`
(assuming the data-model invariant `score ≤ 1`); the score guard
short-circuits to `false` whenever the score is below 1, regardless of the
current state; `APPROVED` has no outgoing transitions; `DRAFT` accepts
only `VALIDATED`. -/
theorem canTransition_characterization (s : PermitSubmission) (t : SubmissionState)
    (hle : s.completenessScore ≤ 1) :
    (canTransition s t = true ↔
      t ∈ ALLOWED_TRANSITIONS s.state ∧ (t = .VALIDATED → s.completenessScore = 1))
    ∧ (s.completenessScore < 1 → canTransition s .VALIDATED = false)
    ∧ (s.state = .APPROVED → canTransition s t = false)
    ∧ (s.state = .DRAFT →
        (canTransition s t = true ↔ t = .VALIDATED ∧ s.completenessScore = 1)) := by
  unfold canTransition
  refine ⟨?_, ?_, ?_, ?_⟩
  · constructor
    · intro h
      by_cases hg : t = .VALIDATED ∧ s.completenessScore < 1
      · simp [hg] at h
      · simp [hg] at h
        refine ⟨by simpa [] using h, ?_⟩
        intro ht
        rcases lt_or_eq_of_le hle with hlt | heq
        · exact absurd ⟨ht, hlt⟩ hg
        · exact heq
    · rintro ⟨hmem, hval⟩
      have hg : ¬(t = .VALIDATED ∧ s.completenessScore < 1) := by
        rintro ⟨ht, hlt⟩
        exact absurd (hval ht) (ne_of_lt hlt)
      simp [hg, hmem]
  · intro hlt
    simp [hlt]
  · intro hA
    by_cases hg : t = .VALIDATED ∧ s.completenessScore < 1
    · simp [hg]
    · simp [hg, hA, ALLOWED_TRANSITIONS]
  · intro hD
    by_cases hg : t = .VALIDATED ∧ s.completenessScore < 1
    · rcases hg with ⟨ht, hlt⟩
      simp [ht, hlt]
      intro h
      exact absurd h (ne_of_lt hlt)
    · simp [hg, hD, ALLOWED_TRANSITIONS]
      intro ht
      rcases lt_or_eq_of_le hle with hlt | heq
      · exact absurd ⟨ht, hlt⟩ hg
      · exact heq

/-- Witness for C1: the characterization applied to the concrete complete
DRAFT submission, instantiated at target `VALIDATED`. -/
theorem canTransition_characterization_witness :
    canTransition sampleSubmission .VALIDATED = true :=
  ((canTransition_characterization sampleSubmission .VALIDATED (by norm_num [sampleSubmission])).1).mpr
    ⟨by decide, fun _ => by norm_num [sampleSubmission]⟩

/-- A string that decomposes as `a ++ pat ++ d` contains `pat` as a substring. -/
theorem strIncludes_of_split (s pat a d : String)
    (h : s.data = a.data ++ pat.data ++ d.data) : strIncludes s pat = true := by
  simp only [strIncludes, decide_eq_true_eq]
  exact ⟨a.data, d.data, h.symm⟩

/-- C9 counterexample: with `lotArea = 1000` and `imperviousArea = 0` both
present, the ratio `0/1000` is within the 45% limit, yet the code returns
`passed = false` with the missing-data message, because the guard is a JS
falsy test that also fires on the number `0`. -/
theorem imperviousCover_counterexample :
    ctxZeroImpervious.lotArea = some 1000
    ∧ ctxZeroImpervious.imperviousArea = some 0
    ∧ ((0 : ℚ) / 1000 ≤ 45 / 100)
    ∧ (imperviousCoverLogic ctxZeroImpervious).passed = false
    ∧ (imperviousCoverLogic ctxZeroImpervious).message
        = "Missing lot/impervious area data." := by
  refine ⟨rfl, rfl, by norm_num, ?_, ?_⟩ <;>
    norm_num [imperviousCoverLogic, ctxZeroImpervious, sampleCtx, numTruthy]

/-- C9 (amended): `imperviousCoverLogic` is total; whenever `lotArea` or
`imperviousArea` is absent **or zero** (JS falsy) it returns `passed = false`
with the missing-data message and performs no division; otherwise it passes
exactly when `imperviousArea / lotArea ≤ 0.45`, the message states the
percentage to one decimal place, and on failure the message contains
"exceeds the 45% limit". -/
theorem imperviousCover_spec (ctx : RuleContext) :
    ((numTruthy ctx.lotArea = false ∨ numTruthy ctx.imperviousArea = false) →
      imperviousCoverLogic ctx =
        { passed := false, message := "Missing lot/impervious area data." })
    ∧ (∀ la ia : ℚ, ctx.lotArea = some la → ctx.imperviousArea = some ia →
        la ≠ 0 → ia ≠ 0 →
        ((imperviousCoverLogic ctx).passed = true ↔ ia / la ≤ 45 / 100)
        ∧ strIncludes (imperviousCoverLogic ctx).message
            (toFixed1 (ia / la * 100) ++ "%") = true
        ∧ ((imperviousCoverLogic ctx).passed = false →
            strIncludes (imperviousCoverLogic ctx).message
              "exceeds the 45% limit" = true)) := by
  constructor
  · intro h
    rcases h with h | h <;> simp [imperviousCoverLogic, h]
  · intro la ia hla hia hla0 hia0
    have hcode : imperviousCoverLogic ctx =
        { passed := decide (ia / la ≤ 45 / 100)
          message :=
            if ia / la ≤ 45 / 100 then
              "Impervious cover (" ++ toFixed1 (ia / la * 100) ++ "%) is within the 45% limit."
            else
              "Impervious cover (" ++ toFixed1 (ia / la * 100) ++ "%) exceeds the 45% limit." } := by
      simp [imperviousCoverLogic, hla, hia, numTruthy, hla0, hia0]
    rw [hcode]
    by_cases hr : ia / la ≤ 45 / 100
    · refine ⟨by simp [hr], ?_, ?_⟩
      · simp only [if_pos hr]
        refine strIncludes_of_split _ _ "Impervious cover ("
          ") is within the 45% limit." ?_
        simp [List.append_assoc]
      · simp [hr]
    · refine ⟨by simp [hr], ?_, ?_⟩
      · simp only [if_neg hr]
        refine strIncludes_of_split _ _ "Impervious cover ("
          ") exceeds the 45% limit." ?_
        simp [List.append_assoc]
      · intro _
        simp only [if_neg hr]
        refine strIncludes_of_split _ _
          ("Impervious cover (" ++ toFixed1 (ia / la * 100) ++ "%) ") "." ?_
        simp [List.append_assoc]

/-- Witness for C9's amended theorem at a concrete context:
`imperviousArea = 4000`, `lotArea = 10000` (40%), which passes. -/
theorem imperviousCover_spec_witness :
    (imperviousCoverLogic
      { sampleCtx with lotArea := some 10000, imperviousArea := some 4000 }).passed = true :=
  (((imperviousCover_spec
      { sampleCtx with lotArea := some 10000, imperviousArea := some 4000 }).2
    10000 4000 rfl rfl (by norm_num) (by norm_num)).1).mpr (by norm_num)

/-- Looking up a key just removed yields nothing. -/
theorem kvLookup_kvRemove_self {α : Type} (l : List (String × α)) (k : String) :
    kvLookup (kvRemove l k) k = none := by
  induction l with
  | nil => rfl
  | cons p rest ih =>
    by_cases h : p.1 = k
    · simp only [kvRemove, kvLookup, List.filter_cons] at ih ⊢
      simp [h, ih]
    · simp only [kvRemove, kvLookup, List.filter_cons] at ih ⊢
      simp [h, ih]


/-- C2: for every POST/PATCH request carrying a (non-empty) idempotency key,
a cached response under `idempotency:<key>` is replayed verbatim with no
state change and no downstream processing; otherwise the lock
`lock:idempotency:<key>` is acquired set-if-not-exists with a 10-second TTL,
a held lock answering `409 Conflict "Processing..."` immediately; requests
without a key pass straight through, and the decision never depends on the
request payload. -/
theorem idempotencyCheck_spec (method : String) (k requestBody : String)
    (st : RedisState) (hm : method = "POST" ∨ method = "PATCH") (hk : k ≠ "") :
    (∀ e, kvLookup st.cache ("idempotency:" ++ k) = some e →
      idempotencyCheck method (some k) requestBody st =
        (.replay e.value.statusCode e.value.headers e.value.body, st))
    ∧ (kvLookup st.cache ("idempotency:" ++ k) = none →
        ((kvLookup st.locks ("lock:idempotency:" ++ k)).isSome = true →
          idempotencyCheck method (some k) requestBody st =
            (.conflict 409 "Conflict" "Processing...", st))
        ∧ (kvLookup st.locks ("lock:idempotency:" ++ k) = none →
          idempotencyCheck method (some k) requestBody st =
            (.proceed (some ("lock:idempotency:" ++ k)),
             { st with locks := kvInsert st.locks ("lock:idempotency:" ++ k) 10 })))
    ∧ idempotencyCheck method none requestBody st = (.proceed none, st)
    ∧ (∀ otherBody,
        idempotencyCheck method (some k) requestBody st =
          idempotencyCheck method (some k) otherBody st) := by
  have hmethod : (method != "POST" && method != "PATCH") = false := by
    rcases hm with h | h <;> simp [h]
  refine ⟨?_, ?_, ?_, fun _ => rfl⟩
  · intro e he
    simp [idempotencyCheck, hmethod, hk, he]
  · intro hnone
    constructor
    · intro hlock
      simp [idempotencyCheck, hmethod, hk, hnone, hlock]
    · intro hlock
      simp [idempotencyCheck, hmethod, hk, hnone, hlock, LOCK_TTL_SECONDS]
  · simp [idempotencyCheck, hmethod]

/-- Witness for C2: on an empty Redis state, a keyed POST acquires the lock
with a 10-second TTL. -/
theorem idempotencyCheck_spec_witness :
    idempotencyCheck "POST" (some "abc") "" { cache := [], locks := [] } =
      (.proceed (some ("lock:idempotency:" ++ "abc")),
       { cache := [], locks := kvInsert [] ("lock:idempotency:" ++ "abc") 10 }) :=
  ((idempotencyCheck_spec "POST" "abc" "" { cache := [], locks := [] }
    (Or.inl rfl) (by decide)).2.1 rfl).2 rfl

/-- C3: the save phase is a no-op once the per-reply processed flag is set;
a first invocation marks it processed and, for a 2xx reply, caches
`{statusCode, headers, body}` under `idempotency:<key>` with a 24-hour TTL
and releases the lock; a non-2xx reply releases the lock without touching
the cache; an internal `setex` failure still releases the lock; and after a
failed (non-2xx, uncached) request, a retry with the same key passes the
check phase again and re-acquires the lock, re-executing business logic. -/
theorem idempotencySave_spec (k lk : String) (statusCode : Nat)
    (headers : List (String × String)) (payload retryBody : String)
    (setexFails : Bool) (st : RedisState) (hk : k ≠ "") (hlk : lk ≠ "") :
    (∀ processed, processed = true →
      idempotencySave (some k) (some lk) processed statusCode headers payload setexFails st
        = (true, st))
    ∧ (200 ≤ statusCode → statusCode < 300 → setexFails = false →
        idempotencySave (some k) (some lk) false statusCode headers payload setexFails st =
          (true,
           { st with
             cache := kvInsert st.cache ("idempotency:" ++ k)
               { value := { statusCode := statusCode, headers := headers, body := payload }
                 ttlSeconds := CACHE_TTL_SECONDS }
             locks := kvRemove st.locks lk }))
    ∧ (¬(200 ≤ statusCode ∧ statusCode < 300) →
        idempotencySave (some k) (some lk) false statusCode headers payload setexFails st =
          (true, { st with locks := kvRemove st.locks lk }))
    ∧ (200 ≤ statusCode → statusCode < 300 → setexFails = true →
        idempotencySave (some k) (some lk) false statusCode headers payload setexFails st =
          (true, { st with locks := kvRemove st.locks lk }))
    ∧ (∀ processed anyLock,
        idempotencySave none anyLock processed statusCode headers payload setexFails st
          = (processed, st))
    ∧ (∀ processed,
        idempotencySave (some k) none processed statusCode headers payload setexFails st
          = (processed, st))
    ∧ (¬(200 ≤ statusCode ∧ statusCode < 300) →
        kvLookup st.cache ("idempotency:" ++ k) = none →
        idempotencyCheck "POST" (some k) retryBody
          (idempotencySave (some k) (some ("lock:idempotency:" ++ k)) false statusCode
            headers payload setexFails st).2 =
          (.proceed (some ("lock:idempotency:" ++ k)),
           { st with locks :=
              (kvInsert (kvRemove st.locks ("lock:idempotency:" ++ k))
                ("lock:idempotency:" ++ k) 10) })) := by
  refine ⟨?_, ?_, ?_, ?_, ?_, ?_, ?_⟩
  · rintro _ rfl
    simp [idempotencySave, hk, hlk]
  · intro hlo hhi hfail
    simp [idempotencySave, hk, hlk, hlo, hhi, hfail]
  · intro hrange
    simp [idempotencySave, hk, hlk, hrange]
  · intro hlo hhi hfail
    simp [idempotencySave, hk, hlk, hlo, hhi, hfail]
  · intro processed anyLock
    cases anyLock <;> rfl
  · intro processed
    rfl
  · intro hrange hcache
    have hlk' : ¬("lock:idempotency:" ++ k) = "" := by
      intro h
      have hlen : ("lock:idempotency:" ++ k).length = 0 := by rw [h]; rfl
      have h2 : "lock:idempotency:".length = 0 ∧ k.length = 0 := by
        simpa [String.length_append] using hlen
      exact absurd h2.1 (by decide)
    have hsave :
        (idempotencySave (some k) (some ("lock:idempotency:" ++ k)) false statusCode
          headers payload setexFails st).2 =
          { st with locks := kvRemove st.locks ("lock:idempotency:" ++ k) } := by
      simp [idempotencySave, hk, hlk', hrange]
    rw [hsave]
    simp [idempotencyCheck, hk, hcache, kvLookup_kvRemove_self, LOCK_TTL_SECONDS]

/-- Witness for C3: a `500` reply with the lock held releases the lock and
caches nothing. -/
theorem idempotencySave_spec_witness :
    idempotencySave (some "abc") (some "lock:idempotency:abc") false 500 [] "boom" false
      { cache := [], locks := [("lock:idempotency:abc", 10)] } =
      (true, { cache := [],
               locks := kvRemove [("lock:idempotency:abc", 10)] "lock:idempotency:abc" }) :=
  (idempotencySave_spec "abc" "lock:idempotency:abc" 500 [] "boom" "" false
    { cache := [], locks := [("lock:idempotency:abc", 10)] }
    (by decide) (by decide)).2.2.1 (by decide)

/-- Helper `pickLatestRuleSet` returns an element of its input. -/
theorem pickLatestRuleSet_mem (l : List RuleSet) (rs : RuleSet)
    (h : pickLatestRuleSet l = some rs) : rs ∈ l := by
  induction l generalizing rs with
  | nil => simp [pickLatestRuleSet] at h
  | cons x rest ih =>
    simp only [pickLatestRuleSet] at h
    cases hrest : pickLatestRuleSet rest with
    | none =>
      rw [hrest] at h
      simp at h
      simp [h]
    | some best =>
      rw [hrest] at h
      by_cases hcmp : best.effectiveDate > x.effectiveDate
      · simp [hcmp] at h
        exact List.mem_cons_of_mem x (ih rs (h ▸ hrest))
      · simp [hcmp] at h
        simp [h]

/-- Helper `pickLatestRuleSet` is `none` exactly on the empty list. -/
theorem pickLatestRuleSet_eq_none (l : List RuleSet) :
    pickLatestRuleSet l = none ↔ l = [] := by
  cases l with
  | nil => simp [pickLatestRuleSet]
  | cons x rest =>
    simp only [pickLatestRuleSet]
    cases hrest : pickLatestRuleSet rest with
    | none => simp
    | some best =>
      by_cases hcmp : best.effectiveDate > x.effectiveDate <;> simp [hcmp]

/-- Helper `pickLatestRuleSet` returns an entry with a maximal effective date. -/
theorem pickLatestRuleSet_max (l : List RuleSet) (rs : RuleSet)
    (h : pickLatestRuleSet l = some rs) :
    ∀ x ∈ l, x.effectiveDate ≤ rs.effectiveDate := by
  induction l generalizing rs with
  | nil => simp [pickLatestRuleSet] at h
  | cons a rest ih =>
    intro y hy
    simp only [pickLatestRuleSet] at h
    cases hrest : pickLatestRuleSet rest with
    | none =>
      rw [hrest] at h
      simp at h
      have hnil : rest = [] := (pickLatestRuleSet_eq_none rest).mp hrest
      subst hnil
      simp at hy
      simp [hy, h]
    | some best =>
      rw [hrest] at h
      by_cases hcmp : best.effectiveDate > a.effectiveDate
      · simp [hcmp] at h
        rcases List.mem_cons.mp hy with hya | hyrest
        · rw [hya, ← h]
          exact le_of_lt hcmp
        · rw [← h]
          exact ih best hrest y hyrest
      · simp [hcmp] at h
        push_neg at hcmp
        rcases List.mem_cons.mp hy with hya | hyrest
        · rw [hya, ← h]
        · rw [← h]
          exact le_trans (ih best hrest y hyrest) hcmp

/-- The evaluation loop, characterised: results are one per implemented
rule in order, warnings are one per unimplemented rule in order. -/
theorem evalRules_foldl (context : RuleContext) (rules : List Rule)
    (acc : List RuleResult) (w : List String) :
    rules.foldl (evalRulesStep context) (acc, w) =
      (acc ++ rules.filterMap (fun r => (ruleImplementations r.key).map fun f =>
          { ruleKey := r.key, passed := (f context).passed,
            message := (f context).message, severity := r.severity }),
       w ++ (rules.filter fun r => (ruleImplementations r.key).isNone).map
          (fun r => "No implementation found for rule key: " ++ r.key)) := by
  induction rules generalizing acc w with
  | nil => simp
  | cons r rest ih =>
    simp only [List.foldl_cons, List.filterMap_cons, List.filter_cons]
    cases himpl : ruleImplementations r.key with
    | none =>
      simp only [evalRulesStep, himpl, Option.map_none, Option.isNone_none]
      rw [ih]
      simp
    | some f =>
      simp only [evalRulesStep, himpl, Option.map_some, Option.isNone_some]
      rw [ih]
      simp

/-- C6: `evaluateRules` selects the rule set with the greatest
`effectiveDate` not exceeding the evaluation time, throwing the
no-active-rule-set error exactly when the jurisdiction has no such rule set
(e.g. all future-dated); each rule in the selected set is dispatched by key
through the fixed registry, with unimplemented keys skipped and recorded as
warning diagnostics rather than failing the evaluation; the result list has
exactly one entry per implemented rule, carrying that rule's key and
severity. -/
theorem evaluateRules_spec (ruleSets : List RuleSet) (context : RuleContext)
    (jurisdictionId : String) (now : ℤ) :
    ((∀ rs ∈ ruleSets, ¬(rs.jurisdictionId = jurisdictionId ∧ rs.effectiveDate ≤ now)) →
      evaluateRules ruleSets context jurisdictionId now =
        .error ("No active RuleSet found for jurisdiction: " ++ jurisdictionId))
    ∧ ((∃ rs ∈ ruleSets, rs.jurisdictionId = jurisdictionId ∧ rs.effectiveDate ≤ now) →
        ∃ rs, findActiveRuleSet ruleSets jurisdictionId now = some rs)
    ∧ (∀ rs, findActiveRuleSet ruleSets jurisdictionId now = some rs →
        (rs ∈ ruleSets ∧ rs.jurisdictionId = jurisdictionId ∧ rs.effectiveDate ≤ now
          ∧ (∀ rs' ∈ ruleSets, rs'.jurisdictionId = jurisdictionId →
              rs'.effectiveDate ≤ now → rs'.effectiveDate ≤ rs.effectiveDate))
        ∧ evaluateRules ruleSets context jurisdictionId now =
            .ok (rs.rules.filterMap (fun r => (ruleImplementations r.key).map fun f =>
                  { ruleKey := r.key, passed := (f context).passed,
                    message := (f context).message, severity := r.severity }),
                 (rs.rules.filter fun r => (ruleImplementations r.key).isNone).map
                   (fun r => "No implementation found for rule key: " ++ r.key))) := by
  refine ⟨?_, ?_, ?_⟩
  · intro hnone
    have hfilter : (ruleSets.filter fun rs =>
        rs.jurisdictionId == jurisdictionId && decide (rs.effectiveDate ≤ now)) = [] := by
      rw [List.filter_eq_nil_iff]
      intro rs hmem
      have := hnone rs hmem
      simpa using this
    simp [evaluateRules, findActiveRuleSet, hfilter, pickLatestRuleSet]
  · rintro ⟨rs, hmem, hjid, heff⟩
    have hmemf : rs ∈ ruleSets.filter fun rs =>
        rs.jurisdictionId == jurisdictionId && decide (rs.effectiveDate ≤ now) := by
      rw [List.mem_filter]
      exact ⟨hmem, by simp [hjid, heff]⟩
    rcases hpick : pickLatestRuleSet (ruleSets.filter fun rs =>
        rs.jurisdictionId == jurisdictionId && decide (rs.effectiveDate ≤ now)) with _ | rs'
    · have := (pickLatestRuleSet_eq_none _).mp hpick
      rw [this] at hmemf
      simp at hmemf
    · exact ⟨rs', hpick⟩
  · intro rs hfind
    have hmemf := pickLatestRuleSet_mem _ _ hfind
    rw [List.mem_filter] at hmemf
    have hprops : rs.jurisdictionId = jurisdictionId ∧ rs.effectiveDate ≤ now := by
      have := hmemf.2
      simpa using this
    refine ⟨⟨hmemf.1, hprops.1, hprops.2, ?_⟩, ?_⟩
    · intro rs' hmem' hjid' heff'
      refine pickLatestRuleSet_max _ _ hfind rs' ?_
      rw [List.mem_filter]
      exact ⟨hmem', by simp [hjid', heff']⟩
    · simp only [evaluateRules, hfind]
      rw [evalRules_foldl]
      simp

/-- A jurisdiction's rule sets for the C6 witness: an old set, the active
set, and a future-dated one. -/
def witnessRuleSets : List RuleSet :=
  [ { jurisdictionId := "jur-1", version := 3, effectiveDate := 100
      rules := [{ key := "ARCHITECTURAL_PLANS_SUBMITTED", severity := .REQUIRED }] }
  , { jurisdictionId := "jur-1", version := 2, effectiveDate := 10
      rules := [{ key := "ARCHITECTURAL_PLANS_SUBMITTED", severity := .REQUIRED }
               , { key := "SOME_FUTURE_RULE", severity := .WARNING }] }
  , { jurisdictionId := "jur-1", version := 1, effectiveDate := 5
      rules := [] } ]

/-- Witness for C6: at time 50 the version-2 set (effective 10) is selected
over the future-dated version 3 and the older version 1; its unimplemented
`SOME_FUTURE_RULE` is skipped with a warning while the implemented rule
yields exactly one REQUIRED result. -/
theorem evaluateRules_spec_witness :
    (witnessRuleSets[1]! ∈ witnessRuleSets
      ∧ (witnessRuleSets[1]!).jurisdictionId = "jur-1"
      ∧ (witnessRuleSets[1]!).effectiveDate ≤ 50
      ∧ (∀ rs' ∈ witnessRuleSets, rs'.jurisdictionId = "jur-1" →
          rs'.effectiveDate ≤ 50 → rs'.effectiveDate ≤ (witnessRuleSets[1]!).effectiveDate))
    ∧ evaluateRules witnessRuleSets sampleCtx "jur-1" 50 =
        .ok ((witnessRuleSets[1]!).rules.filterMap
              (fun r => (ruleImplementations r.key).map fun f =>
                { ruleKey := r.key, passed := (f sampleCtx).passed,
                  message := (f sampleCtx).message, severity := r.severity }),
             ((witnessRuleSets[1]!).rules.filter
                fun r => (ruleImplementations r.key).isNone).map
               (fun r => "No implementation found for rule key: " ++ r.key)) :=
  (evaluateRules_spec witnessRuleSets sampleCtx "jur-1" 50).2.2
    (witnessRuleSets[1]!) (by decide)

/-- Rounding `toFixed(2)` of `1` is `1`. -/
theorem round2_one : round2 1 = 1 := by
  have h : ⌊(1 : ℚ) * 100 + 1 / 2⌋ = 100 := by
    rw [Int.floor_eq_iff]
    norm_num
  rw [round2, h]
  norm_num

/-- The code's inlined score equals the spec's formula. -/
theorem computeScore_eq_specScore (results : List RuleResult) :
    computeScore results = specScore results := by
  unfold computeScore specScore
  by_cases h : (results.filter fun r => r.severity == RuleSeverity.REQUIRED).length = 0
  · simp [h, round2_one]
  · simp [h, Nat.pos_of_ne_zero h]

/-- C4: the score persisted on submission create and on DRAFT update is the
fraction of REQUIRED results that passed, rounded to two decimals, `1.0`
when there are zero REQUIRED results, and WARNING results never affect
it. -/
theorem completenessScore_persisted_spec :
    (∀ results : List RuleResult, computeScore results = specScore results)
    ∧ (∀ results extra : List RuleResult, (∀ r ∈ extra, r.severity = .WARNING) →
        computeScore (results ++ extra) = computeScore results)
    ∧ (∀ results : List RuleResult,
        (results.filter fun r => r.severity == RuleSeverity.REQUIRED).length = 0 →
        computeScore results = 1)
    ∧ (∀ db ctx code user now newId jx results warnings sub db',
        db.jurisdictions.find? (fun j => j.code == code) = some jx →
        evaluateRules db.ruleSets ctx jx.id now = .ok (results, warnings) →
        createForUser db ctx code user now newId = .ok (sub, db') →
        sub.completenessScore = specScore results
        ∧ ∃ s ∈ db'.submissions, s.id = newId ∧ s.completenessScore = specScore results)
    ∧ (∀ db id updates user now existing results warnings sub db',
        findOneForUser db id user = some existing →
        evaluateRules db.ruleSets
          (mergeContext existing.submissionDetails updates existing.projectName)
          existing.jurisdictionId now = .ok (results, warnings) →
        updateSubmission db id updates user now = .ok (sub, db') →
        sub.completenessScore = specScore results) := by
  refine ⟨computeScore_eq_specScore, ?_, ?_, ?_, ?_⟩
  · intro results extra hwarn
    unfold computeScore
    have hfilter : (extra.filter fun r => r.severity == RuleSeverity.REQUIRED) = [] := by
      rw [List.filter_eq_nil_iff]
      intro r hr
      rw [hwarn r hr]
      decide
    rw [List.filter_append, hfilter, List.append_nil]
  · intro results h
    rw [computeScore_eq_specScore]
    unfold specScore
    simp [h]
  · intro db ctx code user now newId jx results warnings sub db' hj he hc
    unfold createForUser at hc
    rw [hj] at hc
    simp only at hc
    rw [he] at hc
    simp only at hc
    by_cases hscore : computeScore results = 1
    · rw [if_pos hscore] at hc
      rcases htr : transitionState
          { db with
            submissions := db.submissions ++
              [{ id := newId, projectName := ctx.projectName, state := .DRAFT,
                 completenessScore := computeScore results,
                 organizationId := user.organizationId,
                 jurisdictionId := jx.id, submissionDetails := ctx }]
            ruleResults := db.ruleResults ++ results.map (toStored newId) }
          newId .VALIDATED user with e | p
      · rw [htr] at hc
        simp at hc
      · rw [htr] at hc
        simp only [Except.ok.injEq, Prod.mk.injEq] at hc
        obtain ⟨hsub, hdb⟩ := hc
        refine ⟨by rw [← hsub]; simp [computeScore_eq_specScore], ?_⟩
        obtain ⟨cur, db2⟩ := p
        unfold transitionState at htr
        rcases hfind : findOneForUser
            { db with
              submissions := db.submissions ++
                [{ id := newId, projectName := ctx.projectName, state := .DRAFT,
                   completenessScore := computeScore results,
                   organizationId := user.organizationId,
                   jurisdictionId := jx.id, submissionDetails := ctx }]
              ruleResults := db.ruleResults ++ results.map (toStored newId) }
            newId user with _ | found
        · rw [hfind] at htr
          simp at htr
        · rw [hfind] at htr
          simp only at htr
          simp only [Except.ok.injEq, Prod.mk.injEq] at htr
          obtain ⟨-, hdb2⟩ := htr
          rw [← hdb, ← hdb2]
          simp only [List.mem_map, List.mem_append]
          refine ⟨_, ⟨_, Or.inr (List.mem_singleton_self _), rfl⟩, ?_⟩
          split <;> simp [computeScore_eq_specScore]
    · rw [if_neg hscore] at hc
      simp only [Except.ok.injEq, Prod.mk.injEq] at hc
      obtain ⟨hsub, hdb⟩ := hc
      refine ⟨by rw [← hsub]; simp [computeScore_eq_specScore], ?_⟩
      rw [← hdb]
      exact ⟨_, List.mem_append_right _ (List.mem_singleton_self _), rfl,
        by simp [computeScore_eq_specScore]⟩
  · intro db id updates user now existing results warnings sub db' hfind he hu
    unfold updateSubmission at hu
    rw [hfind] at hu
    simp only at hu
    by_cases hstate : existing.state = .DRAFT
    · rw [if_neg (by simp [hstate])] at hu
      rw [he] at hu
      simp only at hu
      simp only [Except.ok.injEq, Prod.mk.injEq] at hu
      obtain ⟨hsub, -⟩ := hu
      rw [← hsub]
      simp [computeScore_eq_specScore]
    · rw [if_pos (by simp [hstate])] at hu
      simp at hu

/-- The witness evaluation yields a score of 0 (sole REQUIRED rule fails). -/
theorem computeScore_scoreResults : computeScore scoreResults = 0 := by
  simp [computeScore, scoreResults, round2]
  norm_num

/-- Evaluation of `createForUser` on the witness database. -/
theorem createForUser_scoreDb_eval :
    createForUser scoreDb ctxNoPlans "ATX" scoreUser 7 "new-1" =
      .ok (scoreSub, scoreDbAfter) := by
  unfold createForUser
  rw [show (scoreDb.jurisdictions.find? fun j => j.code == "ATX")
      = some { id := "jur-1", code := "ATX" } from rfl]
  simp only
  rw [show evaluateRules scoreDb.ruleSets ctxNoPlans "jur-1" 7
      = .ok (scoreResults, ["No implementation found for rule key: SOME_FUTURE_RULE"])
      from rfl]
  simp only
  rw [if_neg (by rw [computeScore_scoreResults]; norm_num)]
  rfl

/-- Witness for C4: applying the persistence conjunct to the witness
database: the persisted score is the spec's formula on the evaluation. -/
theorem completenessScore_persisted_spec_witness :
    scoreSub.completenessScore = specScore scoreResults
    ∧ ∃ s ∈ scoreDbAfter.submissions, s.id = "new-1"
        ∧ s.completenessScore = specScore scoreResults :=
  completenessScore_persisted_spec.2.2.2.1 scoreDb ctxNoPlans "ATX" scoreUser 7 "new-1"
    { id := "jur-1", code := "ATX" } scoreResults
    ["No implementation found for rule key: SOME_FUTURE_RULE"] scoreSub scoreDbAfter
    rfl rfl createForUser_scoreDb_eval

/-- C7: packet generation is gated purely by submission state: `DRAFT` and
`NEEDS_INFO` are refused with the invalid-state error (HTTP 400);
`PACKET_READY`, `SUBMITTED`, `POLLING` and `APPROVED` are refused as a
conflict (HTTP 409, packet already exists); only `VALIDATED` queues the
packet-generation job. -/
theorem generatePacket_state_gate (db : Db) (id : String) (user : UserPayload)
    (sub : PermitSubmission) (h : findOneForUser db id user = some sub) :
    ((sub.state = .DRAFT ∨ sub.state = .NEEDS_INFO) →
      generatePacketForSubmission db id user =
        .error "Cannot generate packet: Submission is incomplete or in DRAFT."
      ∧ generatePacketRoute db id user =
        ({ status := 400, body := .errorWithMessage "Invalid State"
            "Cannot generate packet: Submission is incomplete or in DRAFT." }, db))
    ∧ ((sub.state = .PACKET_READY ∨ sub.state = .SUBMITTED ∨ sub.state = .POLLING
        ∨ sub.state = .APPROVED) →
      generatePacketForSubmission db id user =
        .error "Packet already exists. Please download the existing packet."
      ∧ generatePacketRoute db id user =
        ({ status := 409, body := .errorWithMessage "Conflict"
            "Packet already exists. Please download the existing packet." }, db))
    ∧ (sub.state = .VALIDATED →
      generatePacketForSubmission db id user =
        .ok ("job-" ++ toString db.queue.length,
          { db with queue := db.queue ++ [{ jobName := "generate-pdf", submissionId := id }] })
      ∧ (generatePacketRoute db id user).1.status = 200) := by
  have hsvc : generatePacketForSubmission db id user =
      (if sub.state = .DRAFT ∨ sub.state = .NEEDS_INFO then
        .error "Cannot generate packet: Submission is incomplete or in DRAFT."
      else if [SubmissionState.PACKET_READY, .SUBMITTED, .POLLING,
          .APPROVED].contains sub.state then
        .error "Packet already exists. Please download the existing packet."
      else
        .ok ("job-" ++ toString db.queue.length,
          { db with queue := db.queue ++ [{ jobName := "generate-pdf", submissionId := id }] })) := by
    unfold generatePacketForSubmission
    rw [h]
  refine ⟨?_, ?_, ?_⟩
  · intro hst
    have h1 : generatePacketForSubmission db id user =
        .error "Cannot generate packet: Submission is incomplete or in DRAFT." := by
      rw [hsvc, if_pos hst]
    refine ⟨h1, ?_⟩
    unfold generatePacketRoute
    rw [h1]
    simp only
    rw [if_pos (by decide :
      strIncludes "Cannot generate packet: Submission is incomplete or in DRAFT."
        "Cannot generate packet" = true)]
  · intro hst
    have hnot : ¬(sub.state = .DRAFT ∨ sub.state = .NEEDS_INFO) := by
      rcases hst with h' | h' | h' | h' <;> simp [h']
    have hcontains : ([SubmissionState.PACKET_READY, .SUBMITTED, .POLLING,
        .APPROVED].contains sub.state) = true := by
      rcases hst with h' | h' | h' | h' <;> simp [h']
    have h1 : generatePacketForSubmission db id user =
        .error "Packet already exists. Please download the existing packet." := by
      rw [hsvc, if_neg hnot, if_pos hcontains]
    refine ⟨h1, ?_⟩
    unfold generatePacketRoute
    rw [h1]
    simp only
    rw [if_neg (by decide :
        ¬strIncludes "Packet already exists. Please download the existing packet."
          "Cannot generate packet" = true),
      if_pos (by decide :
        strIncludes "Packet already exists. Please download the existing packet."
          "Packet already exists" = true)]
  · intro hst
    have h1 : generatePacketForSubmission db id user =
        .ok ("job-" ++ toString db.queue.length,
          { db with queue := db.queue ++ [{ jobName := "generate-pdf", submissionId := id }] }) := by
      rw [hsvc, if_neg (by simp [hst]), if_neg (by simp [hst])]
    refine ⟨h1, ?_⟩
    unfold generatePacketRoute
    rw [h1]

/-- Witness for C7: on a `VALIDATED` submission the job is queued with a
200 reply. -/
theorem generatePacket_state_gate_witness :
    generatePacketForSubmission packetDb "sub-1" scoreUser =
      .ok ("job-" ++ toString packetDb.queue.length,
        { packetDb with
          queue := packetDb.queue ++ [{ jobName := "generate-pdf", submissionId := "sub-1" }] })
    ∧ (generatePacketRoute packetDb "sub-1" scoreUser).1.status = 200 :=
  (generatePacket_state_gate packetDb "sub-1" scoreUser
    { sampleSubmission with state := .VALIDATED } rfl).2.2 rfl

/-- C8: when no submission both matches the id and belongs to the
requesting tenant — whether the row is absent altogether or owned by a
different organization — `findOneForUser` returns `null` and the GET route
answers the one fixed `404 "Submission not found"` reply, never a 403, so
the two causes are indistinguishable to the caller. -/
theorem tenant_isolation_notFound (db : Db) (id : String) (user : UserPayload)
    (h : ∀ s ∈ db.submissions, ¬(s.id = id ∧ s.organizationId = user.organizationId)) :
    findOneForUser db id user = none
    ∧ getSubmissionRoute db id user =
        { status := 404, body := .errorMsg "Submission not found" }
    ∧ (getSubmissionRoute db id user).status ≠ 403 := by
  have hfind : findOneForUser db id user = none := by
    unfold findOneForUser
    rw [List.find?_eq_none]
    intro s hs
    have := h s hs
    simpa using this
  refine ⟨hfind, ?_, ?_⟩
  · unfold getSubmissionRoute
    rw [hfind]
  · unfold getSubmissionRoute
    rw [hfind]
    simp

/-- Witness for C8: a submission with the queried id exists but belongs to
`org-2`; the `org-1` caller gets exactly the not-found outcome. -/
theorem tenant_isolation_notFound_witness :
    findOneForUser foreignDb "sub-1" scoreUser = none
    ∧ getSubmissionRoute foreignDb "sub-1" scoreUser =
        { status := 404, body := .errorMsg "Submission not found" }
    ∧ (getSubmissionRoute foreignDb "sub-1" scoreUser).status ≠ 403 :=
  tenant_isolation_notFound foreignDb "sub-1" scoreUser (by decide)

/-- C5 (violated by the code): the transition route validates
`canTransition` *before* the `transitionState` transaction, and
`transitionState` itself re-checks nothing.  Interleaving two requests that
both passed the pre-check on the same DRAFT (score 1.0) submission makes
the second transaction persist a table-violating `VALIDATED → VALIDATED`
transition together with its audit event. -/
theorem transition_guard_outside_transaction :
    transitionRouteCheck seededDb "sub-1" .VALIDATED scoreUser = .legal
    ∧ (((transitionState seededDb "sub-1" .VALIDATED scoreUser).toOption.bind fun p1 =>
        (transitionState p1.2 "sub-1" .VALIDATED scoreUser).toOption).map fun p2 =>
          p2.2.events) =
      some [{ submissionId := "sub-1", eventType := "STATE_TRANSITION",
              fromState := .DRAFT, toState := .VALIDATED },
            { submissionId := "sub-1", eventType := "STATE_TRANSITION",
              fromState := .VALIDATED, toState := .VALIDATED }]
    ∧ canTransition { sampleSubmission with state := .VALIDATED } .VALIDATED = false := by
  refine ⟨?_, rfl, ?_⟩
  · have hct : canTransition sampleSubmission .VALIDATED = true := by
      simp [canTransition, sampleSubmission, ALLOWED_TRANSITIONS]
    unfold transitionRouteCheck
    rw [show findOneForUser seededDb "sub-1" scoreUser = some sampleSubmission from rfl]
    simp only
    rw [if_pos hct]
  · simp [canTransition, sampleSubmission, ALLOWED_TRANSITIONS]

/-- C10: a PATCH through `updateSubmission` leaves `projectName`, `state`,
`organizationId` and `jurisdictionId` untouched (a `projectName` in the
body is silently ignored), touches only `completenessScore` and
`submissionDetails` on the submission row, replaces the submission's rule
results wholesale, and changes nothing else in the database. -/
theorem updateSubmission_frame (db : Db) (id : String) (updates : RuleContextUpdate)
    (user : UserPayload) (now : ℤ) (existing sub : PermitSubmission) (db' : Db)
    (hfind : findOneForUser db id user = some existing)
    (hok : updateSubmission db id updates user now = .ok (sub, db')) :
    existing.state = .DRAFT
    ∧ sub.projectName = existing.projectName
    ∧ sub.state = existing.state
    ∧ sub.organizationId = existing.organizationId
    ∧ sub.jurisdictionId = existing.jurisdictionId
    ∧ sub.id = existing.id
    ∧ sub.submissionDetails.projectName = existing.projectName
    ∧ db'.submissions = db.submissions.map (fun s =>
        if s.id == id then
          { s with
            completenessScore := sub.completenessScore
            submissionDetails := sub.submissionDetails }
        else s)
    ∧ db'.events = db.events
    ∧ db'.jurisdictions = db.jurisdictions
    ∧ db'.ruleSets = db.ruleSets
    ∧ db'.queue = db.queue
    ∧ (∃ results warnings,
        evaluateRules db.ruleSets sub.submissionDetails existing.jurisdictionId now
          = .ok (results, warnings)
        ∧ db'.ruleResults = (db.ruleResults.filter fun r => r.submissionId != id)
            ++ results.map (toStored id))
    ∧ (∀ p, updateSubmission db id { updates with projectName := p } user now
        = .ok (sub, db')) := by
  have hignore : ∀ p : Option String,
      updateSubmission db id { updates with projectName := p } user now
        = updateSubmission db id updates user now := fun _ => rfl
  unfold updateSubmission at hok
  rw [hfind] at hok
  simp only at hok
  by_cases hstate : existing.state = .DRAFT
  · rw [if_neg (by simp [hstate])] at hok
    rcases heval : evaluateRules db.ruleSets
        (mergeContext existing.submissionDetails updates existing.projectName)
        existing.jurisdictionId now with e | pr
    · rw [heval] at hok
      simp at hok
    · rw [heval] at hok
      obtain ⟨results, warnings⟩ := pr
      simp only [Except.ok.injEq, Prod.mk.injEq] at hok
      obtain ⟨hsub, hdb⟩ := hok
      have hdetails : sub.submissionDetails =
          mergeContext existing.submissionDetails updates existing.projectName := by
        rw [← hsub]
      have hscore : sub.completenessScore = computeScore results := by
        rw [← hsub]
      refine ⟨hstate, by rw [← hsub], by rw [← hsub, hstate], by rw [← hsub],
        by rw [← hsub], by rw [← hsub], by rw [hdetails]; rfl, ?_, ?_, ?_, ?_, ?_, ?_, ?_⟩
      · rw [← hdb, hscore, hdetails]
      · rw [← hdb]
      · rw [← hdb]
      · rw [← hdb]
      · rw [← hdb]
      · exact ⟨results, warnings, by rw [hdetails]; exact heval, by rw [← hdb]⟩
      · intro p
        rw [hignore p]
        unfold updateSubmission
        rw [hfind]
        simp only
        rw [if_neg (by simp [hstate]), heval]
        simp only
        rw [hsub, hdb]
  · rw [if_pos (by simp [hstate])] at hok
    simp at hok

/-- Witness for C10: the frame theorem applied to a concrete PATCH carrying
a `projectName` and a new building height. -/
theorem updateSubmission_frame_witness :
    sampleSubmission.state = .DRAFT
    ∧ updSub.projectName = sampleSubmission.projectName
    ∧ updSub.state = sampleSubmission.state
    ∧ updSub.organizationId = sampleSubmission.organizationId
    ∧ updSub.jurisdictionId = sampleSubmission.jurisdictionId
    ∧ updSub.id = sampleSubmission.id
    ∧ updSub.submissionDetails.projectName = sampleSubmission.projectName
    ∧ updDbAfter.submissions = seededDb.submissions.map (fun s =>
        if s.id == "sub-1" then
          { s with
            completenessScore := updSub.completenessScore
            submissionDetails := updSub.submissionDetails }
        else s)
    ∧ updDbAfter.events = seededDb.events
    ∧ updDbAfter.jurisdictions = seededDb.jurisdictions
    ∧ updDbAfter.ruleSets = seededDb.ruleSets
    ∧ updDbAfter.queue = seededDb.queue
    ∧ (∃ results warnings,
        evaluateRules seededDb.ruleSets updSub.submissionDetails
          sampleSubmission.jurisdictionId 7 = .ok (results, warnings)
        ∧ updDbAfter.ruleResults =
            (seededDb.ruleResults.filter fun r => r.submissionId != "sub-1")
              ++ results.map (toStored "sub-1"))
    ∧ (∀ p, updateSubmission seededDb "sub-1" { upd0 with projectName := p } scoreUser 7
        = .ok (updSub, updDbAfter)) :=
  updateSubmission_frame seededDb "sub-1" upd0 scoreUser 7 sampleSubmission updSub
    updDbAfter rfl rfl
